import Mathlib

/-!
Verification of the URL-shortener bot core (`src/bot.py`, `src/app.py`).

The Python code is shallowly embedded: pure helpers become Lean functions,
the process-wide `url_cache` dict becomes explicit state passing, and every
outbound HTTP call is an oracle input (`Option HResp`, where `none` models a
transport exception raised by `requests`).  `response.json()` is modelled by
an abstract parse field carried with the response.

Character-class approximation: Python's `re` with `re.IGNORECASE` and the
default Unicode semantics case-folds beyond ASCII and `\d`/`\S`/`str.strip`
use Unicode categories; this embedding uses the ASCII case (A-Z/a-z, 0-9,
ASCII whitespace), which is exact on all ASCII inputs.
-/

namespace Bot

/-- ASCII whitespace, as in Python's `str.strip` / `\s` (ASCII fragment). -/
def pyIsSpace (c : Char) : Bool :=
  c == ' ' || c == '\t' || c == '\n' || c == '\r' || c.toNat == 11 || c.toNat == 12

/-- `\d` (ASCII fragment). -/
def isDigitChar (c : Char) : Bool := 48 ≤ c.toNat && c.toNat ≤ 57

/-- `[A-Z]` under `re.IGNORECASE` (ASCII fragment). -/
def isLetterCI (c : Char) : Bool := 97 ≤ c.toLower.toNat && c.toLower.toNat ≤ 122

/-- `[A-Z0-9]` under `re.IGNORECASE`. -/
def isAlnumCI (c : Char) : Bool := isLetterCI c || isDigitChar c

/-- The characters that can occur in the host part of the validation regex
(`bot.py` lines 152-154): label characters `[A-Z0-9-]`, digits and dots. -/
def hostChar (c : Char) : Bool := isAlnumCI c || c == '-' || c == '.'

/-- `leadsWith pat l` : `l` begins with `pat` (Python `str.startswith`). -/
def leadsWith : List Char → List Char → Bool
  | [], _ => true
  | _ :: _, [] => false
  | p :: ps, c :: cs => p == c && leadsWith ps cs

/-- `containsSeq pat l` : `pat` occurs in `l` (Python `pat in l`). -/
def containsSeq (pat : List Char) : List Char → Bool
  | [] => pat.isEmpty
  | c :: cs => leadsWith pat (c :: cs) || containsSeq pat cs

/-- Split on every occurrence of `sep` (Python `str.split(sep)`). -/
def splitOnChar (sep : Char) : List Char → List (List Char)
  | [] => [[]]
  | c :: cs =>
    match splitOnChar sep cs with
    | [] => [[c]]
    | p :: ps => if c = sep then [] :: p :: ps else (c :: p) :: ps

/-- Consume a literal pattern case-insensitively (each consumed character
lowercases to the pattern character); returns the rest on success. -/
def stripCI : List Char → List Char → Option (List Char)
  | [], l => some l
  | _ :: _, [] => none
  | p :: ps, c :: cs => if c.toLower = p then stripCI ps cs else none

/-- `^https?://` with `re.IGNORECASE`: the optional greedy `s?` first tries
to consume an `s`, i.e. the whole prefix `https://` is tried before
`http://`. -/
def schemeSplit (l : List Char) : Option (List Char) :=
  match stripCI "https://".data l with
  | some r => some r
  | none => stripCI "http://".data l

/-- One dot-free domain label, the full-match language of
`[A-Z0-9](?:[A-Z0-9-]{0,61}[A-Z0-9])?` : nonempty, first and last character
alphanumeric, interior `[A-Z0-9-]`, length at most 63. -/
def labelOk : List Char → Bool
  | [] => false
  | c :: cs =>
    isAlnumCI c && isAlnumCI (cs.getLastD c) &&
      (c :: cs).all (fun x => isAlnumCI x || x == '-') && (c :: cs).length ≤ 63

/-- The TLD `[A-Z]{2,6}` (case-insensitive): two to six letters. -/
def tldOk (l : List Char) : Bool := 2 ≤ l.length && l.length ≤ 6 && l.all isLetterCI

/-- `(?:[A-Z0-9](?:[A-Z0-9-]{0,61}[A-Z0-9])?\.)+[A-Z]{2,6}\.?` .
Labels and the TLD contain no dot, so the decomposition at the dots is
forced: an optional trailing dot, and the dot-separated parts are one or
more labels followed by a TLD. -/
def domainOk (host : List Char) : Bool :=
  let core := if host.getLast? = some '.' then host.dropLast else host
  let parts := splitOnChar '.' core
  2 ≤ parts.length && parts.dropLast.all labelOk && tldOk (parts.getLastD [])

/-- The literal `localhost` under `re.IGNORECASE`. -/
def localhostOk (host : List Char) : Bool := host.map Char.toLower == "localhost".data

/-- `\d{1,3}\.\d{1,3}\.\d{1,3}\.\d{1,3}` : four dot-separated runs of one to
three digits (values are not bounded by 255 in the source regex). -/
def ipv4Ok (host : List Char) : Bool :=
  let parts := splitOnChar '.' host
  parts.length == 4 && parts.all (fun p => 1 ≤ p.length && p.length ≤ 3 && p.all isDigitChar)

/-- The host alternation of the regex (domain, `localhost`, or IPv4). -/
def hostOk (host : List Char) : Bool := domainOk host || localhostOk host || ipv4Ok host

/-- `\S+$` (without `re.MULTILINE`, `$` also matches just before a final
newline): a nonempty all-non-whitespace run, optionally followed by one
final newline. -/
def spacelessPlus (l : List Char) : Bool :=
  if l.getLast? = some '\n' then !l.dropLast.isEmpty && l.dropLast.all (fun c => !pyIsSpace c)
  else !l.isEmpty && l.all (fun c => !pyIsSpace c)

/-- `(?:/?|[/?]\S+)$` : empty or a single slash (each optionally followed by
a final newline, accepted by `$`), or `/`/`?` followed by `\S+`. -/
def tailOk : List Char → Bool
  | [] => true
  | c :: rest =>
    if c = '\n' then rest.isEmpty
    else if c = '/' then (rest.isEmpty || (if rest = ['\n'] then true else spacelessPlus rest))
    else if c = '?' then spacelessPlus rest
    else false

/-- `(?::\d+)?` then the tail: a leading `:` can only be matched by the port
group (the tail starts with `/`, `?` or the end), and the digit run is
maximal since no continuation accepts a digit first. -/
def portTail : List Char → Bool
  | [] => tailOk []
  | c :: r =>
    if c = ':' then !(r.takeWhile isDigitChar).isEmpty && tailOk (r.dropWhile isDigitChar)
    else tailOk (c :: r)

/-- `URLShortenerBot.is_valid_url` (`bot.py` lines 148-157): whether
`re.match` of the compiled pattern succeeds.  The host group always consumes
the maximal run of host characters, because every continuation (port, tail,
`$`) starts with a non-host character or the end of the string. -/
def is_valid_url (s : String) : Bool :=
  match schemeSplit s.data with
  | none => false
  | some rest => hostOk (rest.takeWhile hostChar) && portTail (rest.dropWhile hostChar)

/-! ### MD5 and the URL cache (`bot.py` lines 159-172)

`generate_url_id` is `hashlib.md5(url.encode()).hexdigest()[:8]`.  MD5
(RFC 1321) is embedded as a pure function on byte lists, with 32-bit words
as `Nat` reduced modulo `2 ^ 32`. -/

/-- Reduce to a 32-bit word. -/
def m32 (n : Nat) : Nat := n % 4294967296

/-- 32-bit bitwise complement (for arguments below `2 ^ 32`). -/
def not32 (x : Nat) : Nat := x ^^^ 4294967295

/-- 32-bit left rotation (for `x < 2 ^ 32`, `s ≤ 32`). -/
def rotl32 (x s : Nat) : Nat := x % 2 ^ (32 - s) * 2 ^ s + x / 2 ^ (32 - s)

/-- The 64 MD5 sine-derived constants. -/
def md5K : List Nat :=
  [0xd76aa478, 0xe8c7b756, 0x242070db, 0xc1bdceee,
   0xf57c0faf, 0x4787c62a, 0xa8304613, 0xfd469501,
   0x698098d8, 0x8b44f7af, 0xffff5bb1, 0x895cd7be,
   0x6b901122, 0xfd987193, 0xa679438e, 0x49b40821,
   0xf61e2562, 0xc040b340, 0x265e5a51, 0xe9b6c7aa,
   0xd62f105d, 0x02441453, 0xd8a1e681, 0xe7d3fbc8,
   0x21e1cde6, 0xc33707d6, 0xf4d50d87, 0x455a14ed,
   0xa9e3e905, 0xfcefa3f8, 0x676f02d9, 0x8d2a4c8a,
   0xfffa3942, 0x8771f681, 0x6d9d6122, 0xfde5380c,
   0xa4beea44, 0x4bdecfa9, 0xf6bb4b60, 0xbebfbc70,
   0x289b7ec6, 0xeaa127fa, 0xd4ef3085, 0x04881d05,
   0xd9d4d039, 0xe6db99e5, 0x1fa27cf8, 0xc4ac5665,
   0xf4292244, 0x432aff97, 0xab9423a7, 0xfc93a039,
   0x655b59c3, 0x8f0ccc92, 0xffeff47d, 0x85845dd1,
   0x6fa87e4f, 0xfe2ce6e0, 0xa3014314, 0x4e0811a1,
   0xf7537e82, 0xbd3af235, 0x2ad7d2bb, 0xeb86d391]

/-- The 64 MD5 per-round rotation amounts. -/
def md5S : List Nat :=
  [7, 12, 17, 22, 7, 12, 17, 22, 7, 12, 17, 22, 7, 12, 17, 22,
   5, 9, 14, 20, 5, 9, 14, 20, 5, 9, 14, 20, 5, 9, 14, 20,
   4, 11, 16, 23, 4, 11, 16, 23, 4, 11, 16, 23, 4, 11, 16, 23,
   6, 10, 15, 21, 6, 10, 15, 21, 6, 10, 15, 21, 6, 10, 15, 21]

/-- MD5 padding: `0x80`, zeros to 56 mod 64, then the bit length as eight
little-endian bytes. -/
def md5Pad (msg : List Nat) : List Nat :=
  let bitLen := msg.length * 8 % 2 ^ 64
  msg ++ 128 :: List.replicate ((119 - msg.length % 64) % 64) 0
      ++ (List.range 8).map (fun i => bitLen / 2 ^ (8 * i) % 256)

/-- Split into 64-byte blocks. -/
def toChunks : List Nat → List (List Nat)
  | [] => []
  | a :: rest => ((a :: rest).take 64) :: toChunks ((a :: rest).drop 64)
termination_by l => l.length
decreasing_by simp [List.length_drop]; omega

/-- Little-endian 32-bit word `g` of a block. -/
def md5Word (chunk : List Nat) (g : Nat) : Nat :=
  chunk.getD (4 * g) 0 + 256 * chunk.getD (4 * g + 1) 0 +
    65536 * chunk.getD (4 * g + 2) 0 + 16777216 * chunk.getD (4 * g + 3) 0

/-- Round function and message index for round `i`. -/
def md5Mix (i b c d : Nat) : Nat × Nat :=
  if i < 16 then ((b &&& c) ||| (not32 b &&& d), i)
  else if i < 32 then ((d &&& b) ||| (not32 d &&& c), (5 * i + 1) % 16)
  else if i < 48 then (b ^^^ c ^^^ d, (3 * i + 5) % 16)
  else (c ^^^ (b ||| not32 d), 7 * i % 16)

/-- One MD5 block compression. -/
def md5Compress (st : Nat × Nat × Nat × Nat) (chunk : List Nat) : Nat × Nat × Nat × Nat :=
  let r := (List.range 64).foldl
    (fun (t : Nat × Nat × Nat × Nat) i =>
      let (a, b, c, d) := t
      let (f, g) := md5Mix i b c d
      let rot := rotl32 (m32 (a + f + md5K.getD i 0 + md5Word chunk g)) (md5S.getD i 0)
      (d, m32 (b + rot), b, c)) st
  let (a0, b0, c0, d0) := st
  let (a, b, c, d) := r
  (m32 (a0 + a), m32 (b0 + b), m32 (c0 + c), m32 (d0 + d))

/-- A 32-bit word as four little-endian bytes. -/
def leBytes (x : Nat) : List Nat := [x % 256, x / 256 % 256, x / 65536 % 256, x / 16777216 % 256]

/-- The 16 MD5 digest bytes of a byte string. -/
def md5Bytes (msg : List Nat) : List Nat :=
  let st := (toChunks (md5Pad msg)).foldl md5Compress
    (0x67452301, 0xefcdab89, 0x98badcfe, 0x10325476)
  let (a, b, c, d) := st
  leBytes a ++ leBytes b ++ leBytes c ++ leBytes d

/-- Lowercase hex digit. -/
def hexDigit (n : Nat) : Char := "0123456789abcdef".data.getD n '0'

/-- Bytes to lowercase hex characters (`hexdigest`). -/
def bytesToHex : List Nat → List Char
  | [] => []
  | b :: bs => hexDigit (b / 16) :: hexDigit (b % 16) :: bytesToHex bs

/-- UTF-8 encoding of one code point (`str.encode()`). -/
def utf8Encode (n : Nat) : List Nat :=
  if n < 128 then [n]
  else if n < 2048 then [192 + n / 64, 128 + n % 64]
  else if n < 65536 then [224 + n / 4096, 128 + n / 64 % 64, 128 + n % 64]
  else [240 + n / 262144, 128 + n / 4096 % 64, 128 + n / 64 % 64, 128 + n % 64]

/-- UTF-8 bytes of a string (`url.encode()`). -/
def utf8Bytes (s : String) : List Nat :=
  s.data.foldr (fun c acc => utf8Encode c.toNat ++ acc) []

/-- `URLShortenerBot.generate_url_id` (`bot.py` lines 159-162):
`hashlib.md5(url.encode()).hexdigest()[:8]`. -/
def generate_url_id (url : String) : String :=
  String.mk ((bytesToHex (md5Bytes (utf8Bytes url))).take 8)

/-- The process-wide `url_cache` dict, as a partial map. -/
def Cache : Type := String → Option String

/-- `URLShortenerBot.store_url` (`bot.py` lines 164-168): store the URL under
its generated id (overwriting) and return the id together with the new cache
state. -/
def store_url (cache : Cache) (url : String) : String × Cache :=
  let url_id := generate_url_id url
  (url_id, fun k => if k = url_id then some url else cache k)

/-- `URLShortenerBot.get_url` (`bot.py` lines 170-172):
`url_cache.get(url_id, '')`. -/
def get_url (cache : Cache) (url_id : String) : String :=
  (cache url_id).getD ""

/-! ### HTTP boundary and JSON values

An outbound call is an oracle input `Option HResp`; `none` models an
exception raised by `requests` (connection error, timeout), which the
enclosing `try/except` of `shorten_url` absorbs into a `None` result.
`HResp.json` is the abstract result of `response.json()`: `none` models a
`ValueError` (unparseable body), `some j` the parsed value.  -/

/-- A JSON value, as produced by `response.json()`. -/
inductive Json where
  | jNull : Json
  | jBool : Bool → Json
  | jNum : Int → Json
  | jStr : String → Json
  | jObj : List (String × Json) → Json

/-- Python truthiness of a JSON value (used by the `or` fallback). -/
def jTruthy : Json → Bool
  | .jNull => false
  | .jBool b => b
  | .jNum n => n != 0
  | .jStr s => s != ""
  | .jObj fs => !fs.isEmpty

/-- `dict.get(k)`: `none` models Python `None` for a missing key. -/
def lookupField : List (String × Json) → String → Option Json
  | [], _ => none
  | (k, v) :: rest, key => if k = key then some v else lookupField rest key

/-- Python `a or b` on two `dict.get` results. -/
def pyOrJ (a b : Option Json) : Option Json :=
  match a with
  | some v => if jTruthy v then some v else b
  | none => b

/-- The adapter hands a JSON value back to the bot as a result string.  A
string value is taken as is; `None` stays absent; a non-string JSON value in
these API fields is outside the model and is mapped to absent. -/
def jvalAsStr : Option Json → Option String
  | some (.jStr s) => some s
  | _ => none

/-- An HTTP response: status code, body text, and the abstract outcome of
`response.json()` on that body. -/
structure HResp where
  status : Nat
  text : String
  json : Option Json

/-- The credential configuration (`Config` in `bot.py` lines 20-27). -/
structure Cfg where
  BITLY_TOKEN : String
  CUTTLY_API : String
  GPLINKS_API : String

/-- The oracle for the five provider call sites of `shorten_url`. -/
structure Network where
  bitly : Option HResp
  tinyurl : Option HResp
  cuttly : Option HResp
  gplinksGet : Option HResp
  gplinksPost : Option HResp

/-- Python `str.strip()` (ASCII whitespace fragment). -/
def pyStrip (s : String) : String :=
  String.mk ((s.data.dropWhile pyIsSpace).reverse.dropWhile pyIsSpace).reverse

/-- `re.findall(r'https?://[^\s]+', text)[0]` (`bot.py` lines 250-252):
leftmost occurrence of `http://` or `https://`, extended greedily over
non-whitespace. -/
def findUrl : List Char → Option (List Char)
  | [] => none
  | c :: cs =>
    if leadsWith "http://".data (c :: cs) || leadsWith "https://".data (c :: cs) then
      some ((c :: cs).takeWhile (fun x => !pyIsSpace x))
    else findUrl cs

/-- `json_data.get('status') == 'success'` on an object body. -/
def statusSuccess (fs : List (String × Json)) : Bool :=
  match lookupField fs "status" with
  | some (.jStr s) => s == "success"
  | _ => false

/-- The gplinks POST retry (`bot.py` lines 254-262): on a 200 response whose
trimmed body starts with `http`, the body is the result; anything else is
`None`. -/
def gplinksPostPart (post : Option HResp) : Option String :=
  match post with
  | none => none
  | some r =>
    if r.status = 200 then
      let t := pyStrip r.text
      if leadsWith "http".data t.data then some t else none
    else none

/-- The gplinks branch of `shorten_url` (`bot.py` lines 230-262), given the
GET and POST oracle outcomes.  A raised GET (`none`) aborts the whole
adapter (the exception is caught at the function level, so the POST is never
attempted); a parsed non-object body raises `AttributeError` at
`json_data.get`, likewise absorbed into `None`; a parsed object with
`status == 'success'` returns `shortenedUrl or shorturl` immediately (even
when that is `None`); only a `ValueError` from `response.json()` reaches the
embedded-substring search. -/
def gplinksResult (get post : Option HResp) : Option String :=
  match get with
  | none => none
  | some r =>
    if r.status = 200 then
      let t := pyStrip r.text
      if leadsWith "http".data t.data then some t
      else
        match r.json with
        | some (.jObj fs) =>
          if statusSuccess fs then
            jvalAsStr (pyOrJ (lookupField fs "shortenedUrl") (lookupField fs "shorturl"))
          else gplinksPostPart post
        | some _ => none
        | none =>
          if containsSeq "http".data t.data then
            match findUrl t.data with
            | some u => some (String.mk u)
            | none => gplinksPostPart post
          else gplinksPostPart post
    else gplinksPostPart post

/-- `response.json()[k]` as used by the bitly branch: any parse failure,
non-object body, missing key, or non-string value raises and is absorbed by
the enclosing `except` into `None`. -/
def jsonField (oj : Option Json) (k : String) : Option String :=
  match oj with
  | some (.jObj fs) =>
    match lookupField fs k with
    | some (.jStr s) => some s
    | _ => none
  | _ => none

/-- The cuttly response extraction (`bot.py` lines 225-228):
`data.get('url', {}).get('status') == 7` guards `data['url']['shortLink']`;
a non-dict value raises and is absorbed into `None`. -/
def cuttlyExtract : Json → Option String
  | .jObj fs =>
    match (lookupField fs "url").getD (.jObj []) with
    | .jObj ufs =>
      if (match lookupField ufs "status" with | some (.jNum n) => n == 7 | _ => false) then
        match lookupField ufs "shortLink" with
        | some (.jStr s) => some s
        | _ => none
      else none
    | _ => none
  | _ => none

/-- `URLShortenerBot.shorten_url` (`bot.py` lines 192-268): validate the
URL, then run the branch of the requested service against the oracle. -/
def shorten_url (cfg : Cfg) (net : Network) (url service : String) : Option String :=
  if is_valid_url url = false then none
  else if service = "bitly" then
    if cfg.BITLY_TOKEN = "" then none
    else
      match net.bitly with
      | none => none
      | some r => if r.status = 200 then jsonField r.json "link" else none
  else if service = "tinyurl" then
    match net.tinyurl with
    | none => none
    | some r => if r.status = 200 then some (pyStrip r.text) else none
  else if service = "cuttly" then
    if cfg.CUTTLY_API = "" then none
    else
      match net.cuttly with
      | none => none
      | some r =>
        if r.status = 200 then
          match r.json with
          | none => none
          | some j => cuttlyExtract j
        else none
  else if service = "gplinks" then
    if cfg.GPLINKS_API = "" then none
    else gplinksResult net.gplinksGet net.gplinksPost
  else none

/-! ### Dispatch, aggregation and the status reporter -/

/-- Python `str.capitalize()`. -/
def pyCapitalize (s : String) : String :=
  match s.data with
  | [] => ""
  | c :: cs => String.mk (c.toUpper :: cs.map Char.toLower)

/-- `SUPPORTED_SERVICES[key]['name']`, with the
`service_info.get('name', service.capitalize())` default used by the
dispatch code. -/
def serviceDisplayName (service : String) : String :=
  if service = "bitly" then "Bitly"
  else if service = "tinyurl" then "TinyURL"
  else if service = "cuttly" then "Cuttly"
  else if service = "gplinks" then "GPLinks"
  else pyCapitalize service

/-- The enumeration order of `config.SUPPORTED_SERVICES` (a Python dict
preserves insertion order). -/
def serviceKeys : List String := ["bitly", "tinyurl", "cuttly", "gplinks"]

/-- Python truthiness of an adapter result, as tested by
`if shortened_url:` (`bot.py` lines 502 and 530): `None` and the empty
string are falsy. -/
def pyTruthyStr : Option String → Bool
  | none => false
  | some u => u != ""

/-- `URLShortenerBot.send_single_shortened_url` (`bot.py` lines 494-518):
the message text sent for a single-service dispatch.  The success branch is
guarded by Python truthiness, so an empty-string result is reported as a
failure. -/
def send_single_shortened_url (cfg : Cfg) (net : Network) (url service : String) : String :=
  let service_name := serviceDisplayName service
  let shortened_url := shorten_url cfg net url service
  if pyTruthyStr shortened_url then
    "‚úÖ **" ++ service_name ++ "**\nüîó `" ++ shortened_url.getD "" ++ "`" ++
      (if service = "gplinks" then "\n\nüí∞ *Earn money with this shortened link!*" else "")
  else "‚ùå Failed to shorten URL using " ++ service_name ++ "."

/-- One iteration of the `send_all_shortened_urls` loop (`bot.py` lines
526-537): append this service's line and count a success.  The success
branch is `if shortened_url:` — Python truthiness — so an empty-string
result gets the failure line and is not counted. -/
def sendAllStep (res : String → Option String) (acc : String × Nat) (key : String) : String × Nat :=
  let shortened_url := res key
  if pyTruthyStr shortened_url then
    (acc.1 ++ "‚úÖ **" ++ serviceDisplayName key ++ "**\n`" ++ shortened_url.getD "" ++ "`" ++
      (if key = "gplinks" then " üí∞" else "") ++ "\n\n", acc.2 + 1)
  else (acc.1 ++ "‚ùå **" ++ serviceDisplayName key ++ "** - Failed\n\n", acc.2)

/-- `URLShortenerBot.send_all_shortened_urls` (`bot.py` lines 520-548): the
aggregate message for the `all` selector. -/
def send_all_shortened_urls (cfg : Cfg) (net : Network) (url : String) : String :=
  let r := serviceKeys.foldl (sendAllStep (fun k => shorten_url cfg net url k))
    ("üîó **Shortened URLs**\n\n", 0)
  if r.2 = 0 then "‚ùå All services failed. Please try again later."
  else r.1 ++ "‚úÖ **" ++ toString r.2 ++ "/" ++ toString serviceKeys.length ++ " successful**"

/-- `check_service_status` (`bot.py` lines 62-70 and `app.py` lines 15-26,
identical): per-credential booleans (`bool(str)` is `str != ''`) and
`sum(status.values()) + 1`, the `+ 1` standing for TinyURL. -/
def check_service_status (cfg : Cfg) : (Bool × Bool × Bool) × Nat :=
  let status := (cfg.BITLY_TOKEN != "", cfg.CUTTLY_API != "", cfg.GPLINKS_API != "")
  (status,
    (if status.1 then 1 else 0) + (if status.2.1 then 1 else 0) +
      (if status.2.2 then 1 else 0) + 1)

/-- One service entry of the `/api/status` payload. -/
structure SvcStatus where
  connected : Bool
  has_key : Bool

/-- The four per-service entries of the `/api/status` payload. -/
structure ApiServices where
  bitly : SvcStatus
  tinyurl : SvcStatus
  cuttly : SvcStatus
  gplinks : SvcStatus

/-- The `services` object of `api_status` (`app.py` lines 46-76 and `bot.py`
lines 90-120, identical): tinyurl is hard-wired connected with no key. -/
def api_status_services (cfg : Cfg) : ApiServices :=
  let s := (check_service_status cfg).1
  { bitly := ⟨s.1, cfg.BITLY_TOKEN != ""⟩
    tinyurl := ⟨true, false⟩
    cuttly := ⟨s.2.1, cfg.CUTTLY_API != ""⟩
    gplinks := ⟨s.2.2, cfg.GPLINKS_API != ""⟩ }

/-- The `summary` object of `api_status`: `total_services` and
`connected_services`. -/
def api_status_summary (cfg : Cfg) : Nat × Nat := (4, (check_service_status cfg).2)

/-! ### Callback handling (`bot.py` lines 449-492) -/

/-- Split off the part before the first `sep`, returning the rest when a
separator was found. -/
def breakAt (sep : Char) : List Char → List Char × Option (List Char)
  | [] => ([], none)
  | c :: cs =>
    if c = sep then ([], some cs)
    else
      let r := breakAt sep cs
      (c :: r.1, r.2)

/-- Python `str.split(sep, maxsplit)` for a one-character separator. -/
def splitUpTo (sep : Char) : Nat → List Char → List (List Char)
  | 0, l => [l]
  | n + 1, l =>
    match breakAt sep l with
    | (p, none) => [p]
    | (p, some rest) => p :: splitUpTo sep n rest

/-- The `service_map.get(service_code, service_code)` lookup (`bot.py` lines
461-469). -/
def serviceMapGet (code : String) : String :=
  if code = "bitly" then "bitly"
  else if code = "tiny" then "tinyurl"
  else if code = "cutt" then "cuttly"
  else if code = "gpl" then "gplinks"
  else if code = "all" then "all"
  else code

/-- The decision taken by `button_handler` for a callback payload. -/
inductive BAction where
  | notFound : BAction
  | dispatchAll : String → BAction
  | dispatchSingle : String → String → BAction
  | invalidRequest : BAction
  | unknownCommand : BAction

/-- `URLShortenerBot.button_handler` (`bot.py` lines 449-492) on the cache
state and callback data: parse `s_<code>_<id>` with `data.split('_', 2)`,
look the id up, and treat a falsy (empty) URL as the lookup miss. -/
def button_handler (cache : Cache) (data : String) : BAction :=
  if leadsWith "s_".data data.data then
    let parts := splitUpTo '_' 2 data.data
    if parts.length = 3 then
      let service := serviceMapGet (String.mk (parts.getD 1 []))
      let url := get_url cache (String.mk (parts.getD 2 []))
      if url = "" then .notFound
      else if service = "all" then .dispatchAll url
      else .dispatchSingle service url
    else .invalidRequest
  else .unknownCommand

/-! ### Specification-side definitions

These follow the wording of the specification and of the claims, to be
compared with the definitions embedded from the source. -/

/-- `startswith` of `http://` or `https://` up to ASCII case. -/
def lowerLeads (s : String) : Bool :=
  leadsWith "http://".data (s.data.map Char.toLower) ||
    leadsWith "https://".data (s.data.map Char.toLower)

/-- The scheme part: a case-insensitive `http://` or `https://`. -/
def SchemeSpec (pre : List Char) : Prop :=
  pre.map Char.toLower = "http://".data ∨ pre.map Char.toLower = "https://".data

/-- The optional port: nothing, or `:` with at least one digit. -/
def PortSpec (port : List Char) : Prop :=
  port = [] ∨ ∃ ds, port = ':' :: ds ∧ ds ≠ [] ∧ ds.all isDigitChar = true

/-- The optional path/query: nothing, a lone slash, or `/` or `?` followed
by at least one non-whitespace character. -/
def TailSpec (tail : List Char) : Prop :=
  tail = [] ∨ tail = ['/'] ∨
    ∃ c r, tail = c :: r ∧ (c = '/' ∨ c = '?') ∧ r ≠ [] ∧
      r.all (fun x => !pyIsSpace x) = true

/-- The optional final newline accepted by `$`. -/
def NlSpec (nl : List Char) : Prop := nl = [] ∨ nl = ['\n']

/-- The shape described by the specification for accepted URLs: scheme,
host (domain with 2-6 letter TLD, `localhost`, or dotted-quad IPv4),
optional port, optional path/query, optional final newline. -/
def ValidUrlSpec (s : String) : Prop :=
  ∃ scheme host port tail nl,
    s.data = scheme ++ (host ++ (port ++ (tail ++ nl))) ∧
    SchemeSpec scheme ∧
    hostOk host = true ∧ host.all hostChar = true ∧
    PortSpec port ∧ TailSpec tail ∧ NlSpec nl

/-- Modelled from the words of claim C2: the claimed gplinks strategy
chain.  On a 200 GET: (1) a trimmed body starting with `http` is the
result; (2) otherwise a JSON body with `status == 'success'` yields the
`shortenedUrl`/`shorturl` field; (3) otherwise an embedded `http...`
substring found by pattern search is the result; if the GET produced no
usable result, the POST retry runs with the "body starts with http" check
only. -/
def gplinksClaimed (get post : Option HResp) : Option String :=
  let postStep := gplinksPostPart post
  match get with
  | none => postStep
  | some r =>
    if r.status = 200 then
      let t := pyStrip r.text
      if leadsWith "http".data t.data then some t
      else
        match (match r.json with
               | some (.jObj fs) =>
                 if statusSuccess fs then
                   jvalAsStr (pyOrJ (lookupField fs "shortenedUrl") (lookupField fs "shorturl"))
                 else none
               | _ => none) with
        | some w => some w
        | none =>
          match (if containsSeq "http".data t.data then findUrl t.data else none) with
          | some u => some (String.mk u)
          | none => postStep
    else postStep

/-- Cache states reachable from the empty cache by `store_url` operations. -/
inductive Reachable : Cache → Prop where
  | empty : Reachable (fun _ => none)
  | step (cache : Cache) (url : String) : Reachable cache → Reachable (store_url cache url).2

/-- The cache invariant of the specification: every stored id is the
derivation of its stored URL. -/
def CacheInv (cache : Cache) : Prop :=
  ∀ id url, cache id = some url → id = generate_url_id url

/-- The per-service line of the aggregate message, as the specification
describes it: a success line with the shortened URL, or a failure marker.
Success is the program's own criterion — a truthy (non-empty) result. -/
def allServicesLine (key : String) (res : Option String) : String :=
  if pyTruthyStr res then
    "‚úÖ **" ++ serviceDisplayName key ++ "**\n`" ++ res.getD "" ++ "`" ++
      (if key = "gplinks" then " üí∞" else "") ++ "\n\n"
  else "‚ùå **" ++ serviceDisplayName key ++ "** - Failed\n\n"

/-- Concatenation of a list of strings. -/
def concatAll : List String → String
  | [] => ""
  | s :: ss => s ++ concatAll ss

/-- The number of services whose adapter returns a truthy (non-empty)
result for this dispatch — the count kept by `successful_shortens`. -/
def successCount (cfg : Cfg) (net : Network) (url : String) : Nat :=
  (serviceKeys.filter (fun k => pyTruthyStr (shorten_url cfg net url k))).length

/-! ### Concrete fixtures used by witnesses and counterexamples -/

/-- A configuration with no credentials at all. -/
def cfg0 : Cfg := ⟨"", "", ""⟩

/-- A configuration with only the gplinks credential set. -/
def cfgG : Cfg := ⟨"", "", "gpl-key"⟩

/-- A configuration with every credential set. -/
def cfgAll : Cfg := ⟨"bitly-token", "cuttly-key", "gpl-key"⟩

/-- The all-failing oracle: every call raises. -/
def net0 : Network := ⟨none, none, none, none, none⟩

/-- A 200 gplinks GET response whose body parses as JSON with a non-success
status but embeds an `http...` substring. -/
def gplRespA : HResp :=
  { status := 200
    text := "\x7b\"status\": \"bad\", \"info\": \"see http://alt.example/x now\"\x7d"
    json := some (.jObj [("status", .jStr "bad"), ("info", .jStr "see http://alt.example/x now")]) }

/-- A 200 gplinks GET response whose body parses as JSON with
`status == 'success'` but carries neither `shortenedUrl` nor `shorturl`. -/
def gplRespB : HResp :=
  { status := 200
    text := "\x7b\"status\": \"success\"\x7d"
    json := some (.jObj [("status", .jStr "success")]) }

/-- A 200 plain-text POST response carrying a shortened URL. -/
def gplPostY : HResp := { status := 200, text := "http://post.example/y", json := none }

/-- Another 200 plain-text POST response carrying a shortened URL. -/
def gplPostZ : HResp := { status := 200, text := "http://post.example/z", json := none }

/-- Oracle for the first C2 divergence: GET parses with non-success status,
POST would succeed. -/
def netA : Network := ⟨none, none, none, some gplRespA, some gplPostY⟩

/-- Oracle for the second C2 divergence: GET reports success without a URL
field, POST would succeed. -/
def netB : Network := ⟨none, none, none, some gplRespB, some gplPostZ⟩

/-- An oracle on which exactly bitly and tinyurl succeed. -/
def netTwo : Network :=
  ⟨some ⟨200, "", some (.jObj [("link", .jStr "https://bit.ly/x1")])⟩,
   some ⟨200, "https://tinyurl.com/y2", none⟩,
   some ⟨200, "", some (.jObj [])⟩,
   none, none⟩

/-! ### Claims C5, C6, C7, C9, C10 -/

/-- C5: for every configuration of credential strings, the status reporter
marks tinyurl connected unconditionally, marks each of bitly, cuttly and
gplinks connected exactly when its credential is a non-empty string, and
`connected_services` equals one plus the number of non-empty credentials,
which is the number of services with `connected = true`. -/
theorem claim_C5_service_status : ∀ cfg : Cfg,
    (api_status_services cfg).tinyurl.connected = true ∧
    (api_status_services cfg).bitly.connected = (cfg.BITLY_TOKEN != "") ∧
    (api_status_services cfg).cuttly.connected = (cfg.CUTTLY_API != "") ∧
    (api_status_services cfg).gplinks.connected = (cfg.GPLINKS_API != "") ∧
    (check_service_status cfg).2 =
      1 + ((if cfg.BITLY_TOKEN != "" then 1 else 0) +
        (if cfg.CUTTLY_API != "" then 1 else 0) + (if cfg.GPLINKS_API != "" then 1 else 0)) ∧
    (check_service_status cfg).2 =
      (if (api_status_services cfg).bitly.connected then 1 else 0) +
        (if (api_status_services cfg).tinyurl.connected then 1 else 0) +
        (if (api_status_services cfg).cuttly.connected then 1 else 0) +
        (if (api_status_services cfg).gplinks.connected then 1 else 0) := by
  intro cfg
  cases hb1 : cfg.BITLY_TOKEN != "" <;> cases hb2 : cfg.CUTTLY_API != "" <;>
    cases hb3 : cfg.GPLINKS_API != "" <;>
    simp [api_status_services, check_service_status, hb1, hb2, hb3]

/-- C6: storing a URL and reading the returned id gives the URL back for
any prior cache state, and when two URLs have the same generated short id,
the second `store_url` overwrites the first, so the shared id thereafter
resolves to the second URL. -/
theorem claim_C6_cache_roundtrip : ∀ cache : Cache,
    (∀ u : String, get_url (store_url cache u).2 (store_url cache u).1 = u) ∧
    (∀ u1 u2 : String, generate_url_id u1 = generate_url_id u2 →
      get_url (store_url (store_url cache u1).2 u2).2 (generate_url_id u1) = u2) := by
  intro cache
  constructor
  · intro u
    simp [store_url, get_url]
  · intro u1 u2 h
    simp [store_url, get_url, h]

/-- C6 witness: round-trip and overwrite at a concrete URL (a colliding
pair is obtained by storing the same URL twice, which trivially satisfies
the collision hypothesis). -/
theorem claim_C6_witness :
    get_url (store_url (fun _ => none) "http://example.com").2
      (store_url (fun _ => none) "http://example.com").1 = "http://example.com" ∧
    get_url (store_url (store_url (fun _ => none) "http://example.com").2
        "http://example.com").2
      (generate_url_id "http://example.com") = "http://example.com" :=
  ⟨(claim_C6_cache_roundtrip (fun _ => none)).1 "http://example.com",
   (claim_C6_cache_roundtrip (fun _ => none)).2 "http://example.com" "http://example.com" rfl⟩

/-- C7: in every cache state reachable from the empty cache by `store_url`
operations, every stored entry's key equals the short id recomputed from
the entry's URL (the MD5 hex digest truncated to 8 characters, embedded as
`generate_url_id`). -/
theorem claim_C7_cache_id_invariant : ∀ cache : Cache, Reachable cache → CacheInv cache := by
  intro cache h
  induction h with
  | empty => intro id url h'; cases h'
  | step c u _ ih =>
    intro id url h'
    simp only [store_url] at h'
    by_cases hid : id = generate_url_id u
    · have : some u = some url := by rw [← h']; simp [hid]
      cases this
      exact hid
    · exact ih id url (by simpa [hid] using h')

/-- C7 witness: the invariant holds of the concrete state reached by one
store into the empty cache. -/
theorem claim_C7_witness : CacheInv (store_url (fun _ => none) "http://example.com").2 :=
  claim_C7_cache_id_invariant _ (Reachable.step _ _ Reachable.empty)

/-- C9: for every string rejected by the validator and every service key,
`shorten_url` returns `None`, and its result does not depend on the network
oracle at all — no provider call is performed, because the adapter layer
re-validates the URL before selecting a service branch. -/
theorem claim_C9_invalid_url_no_call :
    ∀ (cfg : Cfg) (net net' : Network) (url service : String),
      is_valid_url url = false →
      shorten_url cfg net url service = none ∧
      shorten_url cfg net url service = shorten_url cfg net' url service := by
  intro cfg net net' url service h
  constructor <;> simp [shorten_url, h]

/-- C9 witness at a concrete invalid URL and two distinct oracles. -/
theorem claim_C9_witness :
    shorten_url cfgAll netTwo "example.com" "tinyurl" = none ∧
    shorten_url cfgAll netTwo "example.com" "tinyurl" =
      shorten_url cfgAll net0 "example.com" "tinyurl" :=
  claim_C9_invalid_url_no_call cfgAll netTwo net0 "example.com" "tinyurl" (by decide)

/-- C10: a missing id reads back as the empty string (`dict.get` default),
and for a well-formed `s_gpl_<id>` payload the handler answers the lookup
miss exactly when the cached value reads back empty. -/
theorem claim_C10_lookup_miss : ∀ (cache : Cache) (id : String),
    (cache id = none → get_url cache id = "") ∧
    (button_handler cache ("s_gpl_" ++ id) = BAction.notFound ↔ get_url cache id = "") := by
  intro cache id
  constructor
  · intro h
    simp [get_url, h]
  · have hdata : ("s_gpl_" ++ id).data = 's' :: '_' :: 'g' :: 'p' :: 'l' :: '_' :: id.data := by
      rw [String.data_append]
      rfl
    have hmk : String.mk id.data = id := String.ext rfl
    have h1 : leadsWith "s_".data ('s' :: '_' :: 'g' :: 'p' :: 'l' :: '_' :: id.data) = true := rfl
    have h2 : splitUpTo '_' 2 ('s' :: '_' :: 'g' :: 'p' :: 'l' :: '_' :: id.data) =
        [['s'], ['g', 'p', 'l'], id.data] := rfl
    have h3 : String.mk ['g', 'p', 'l'] = "gpl" := rfl
    unfold button_handler
    rw [hdata, h1, h2]
    simp only [List.length_cons, List.length_nil, List.getD, h3, hmk]
    norm_num [serviceMapGet]
    by_cases hurl : get_url cache id = "" <;> simp [hurl]

/-- C10 witness: the spec scenario `s_gpl_deadbeef` against the empty
cache. -/
theorem claim_C10_witness :
    get_url (fun _ => none) "deadbeef" = "" ∧
    button_handler (fun _ => none) ("s_gpl_" ++ "deadbeef") = BAction.notFound :=
  ⟨(claim_C10_lookup_miss (fun _ => none) "deadbeef").1 rfl,
   (claim_C10_lookup_miss (fun _ => none) "deadbeef").2.mpr rfl⟩

/-! ### Claims C3 and C4 -/

/-- The `send_all_shortened_urls` loop appends exactly one line per service,
in enumeration order, and counts the successes. -/
lemma sendAll_foldl (res : String → Option String) :
    ∀ (keys : List String) (m : String) (c : Nat),
      keys.foldl (sendAllStep res) (m, c) =
        (m ++ concatAll (keys.map (fun k => allServicesLine k (res k))),
          c + (keys.filter (fun k => pyTruthyStr (res k))).length) := by
  intro keys
  induction keys with
  | nil =>
    intro m c
    simp [concatAll]
  | cons k ks ih =>
    intro m c
    rw [List.foldl_cons]
    cases h : pyTruthyStr (res k) with
    | true =>
      rw [show sendAllStep res (m, c) k = (m ++ allServicesLine k (res k), c + 1) by
        simp [sendAllStep, allServicesLine, h, String.append_assoc]]
      rw [ih]
      simp [Prod.ext_iff, List.filter_cons, h, concatAll, String.append_assoc]
      omega
    | false =>
      rw [show sendAllStep res (m, c) k = (m ++ allServicesLine k (res k), c) by
        simp [sendAllStep, allServicesLine, h, String.append_assoc]]
      rw [ih]
      simp [Prod.ext_iff, List.filter_cons, h, concatAll, String.append_assoc]

/-- An adapter result that is the empty string is falsy in Python
(`if shortened_url:`, `bot.py` line 530), so the loop renders the failure
line for it and does not count it. -/
lemma sendAllStep_empty_string (res : String → Option String) (m : String) (c : Nat)
    (key : String) (h : res key = some "") :
    sendAllStep res (m, c) key =
      (m ++ "‚ùå **" ++ serviceDisplayName key ++ "** - Failed\n\n", c) := by
  simp [sendAllStep, pyTruthyStr, h]

/-- C3: when at least one adapter succeeds, the `all` dispatch message is
the header followed by exactly one line per configured service — in the
fixed enumeration order bitly, tinyurl, cuttly, gplinks, with no
short-circuiting on failures — and the trailer `k/4 successful` where `k`
is the number of adapters that returned a result. -/
theorem claim_C3_aggregate_message : ∀ (cfg : Cfg) (net : Network) (url : String),
    0 < successCount cfg net url →
    send_all_shortened_urls cfg net url =
      "üîó **Shortened URLs**\n\n" ++
        concatAll (serviceKeys.map (fun k => allServicesLine k (shorten_url cfg net url k))) ++
        ("‚úÖ **" ++ toString (successCount cfg net url) ++ "/4 successful**") := by
  intro cfg net url h
  unfold successCount at h
  unfold send_all_shortened_urls
  rw [sendAll_foldl]
  simp only [Nat.zero_add]
  rw [if_neg (by omega)]
  have h4 : ("/" : String) ++ (toString serviceKeys.length ++ " successful**") =
      "/4 successful**" := by decide
  simp only [String.append_assoc, successCount]
  rw [h4]

/-- C3 witness: the two-successes scenario (bitly and tinyurl mocked to
succeed, cuttly and gplinks to fail). -/
theorem claim_C3_witness :
    send_all_shortened_urls cfgAll netTwo "http://example.com" =
      "üîó **Shortened URLs**\n\n" ++
        concatAll (serviceKeys.map
          (fun k => allServicesLine k (shorten_url cfgAll netTwo "http://example.com" k))) ++
        ("‚úÖ **" ++ toString (successCount cfgAll netTwo "http://example.com") ++
          "/4 successful**") :=
  claim_C3_aggregate_message cfgAll netTwo "http://example.com" (by decide)

/-- C4: when every adapter fails, the aggregate message is replaced by the
blanket failure notice, which contains none of the four per-service name
lines and no success count. -/
theorem claim_C4_blanket_failure : ∀ (cfg : Cfg) (net : Network) (url : String),
    successCount cfg net url = 0 →
    send_all_shortened_urls cfg net url = "‚ùå All services failed. Please try again later." ∧
    containsSeq "Bitly".data (send_all_shortened_urls cfg net url).data = false ∧
    containsSeq "TinyURL".data (send_all_shortened_urls cfg net url).data = false ∧
    containsSeq "Cuttly".data (send_all_shortened_urls cfg net url).data = false ∧
    containsSeq "GPLinks".data (send_all_shortened_urls cfg net url).data = false ∧
    containsSeq "successful".data (send_all_shortened_urls cfg net url).data = false := by
  intro cfg net url h
  unfold successCount at h
  have hm : send_all_shortened_urls cfg net url =
      "‚ùå All services failed. Please try again later." := by
    unfold send_all_shortened_urls
    rw [sendAll_foldl]
    simp [h]
  refine ⟨hm, ?_, ?_, ?_, ?_, ?_⟩ <;> rw [hm] <;> decide

/-- C4 witness: all four adapters failing (no credentials, all transports
raising). -/
theorem claim_C4_witness :
    send_all_shortened_urls cfg0 net0 "http://example.com" =
      "‚ùå All services failed. Please try again later." ∧
    containsSeq "Bitly".data (send_all_shortened_urls cfg0 net0 "http://example.com").data = false ∧
    containsSeq "TinyURL".data (send_all_shortened_urls cfg0 net0 "http://example.com").data = false ∧
    containsSeq "Cuttly".data (send_all_shortened_urls cfg0 net0 "http://example.com").data = false ∧
    containsSeq "GPLinks".data (send_all_shortened_urls cfg0 net0 "http://example.com").data = false ∧
    containsSeq "successful".data
      (send_all_shortened_urls cfg0 net0 "http://example.com").data = false :=
  claim_C4_blanket_failure cfg0 net0 "http://example.com" (by decide)

/-! ### Claim C8 -/

/-- C8: every adapter fails closed — a raised transport call, a non-success
HTTP status, a missing credential, or an unparseable JSON body yields an
absent result (the embedding is total, matching the enclosing
`try/except` that absorbs every exception); in particular, with the
gplinks credential unset, a single-service gplinks dispatch produces the
failure message naming GPLinks. -/
theorem claim_C8_fail_closed :
    (∀ cfg net url, net.bitly = none → shorten_url cfg net url "bitly" = none) ∧
    (∀ cfg net url, net.tinyurl = none → shorten_url cfg net url "tinyurl" = none) ∧
    (∀ cfg net url, net.cuttly = none → shorten_url cfg net url "cuttly" = none) ∧
    (∀ cfg net url, net.gplinksGet = none → shorten_url cfg net url "gplinks" = none) ∧
    (∀ cfg net url, cfg.BITLY_TOKEN = "" → shorten_url cfg net url "bitly" = none) ∧
    (∀ cfg net url, cfg.CUTTLY_API = "" → shorten_url cfg net url "cuttly" = none) ∧
    (∀ cfg net url, cfg.GPLINKS_API = "" → shorten_url cfg net url "gplinks" = none) ∧
    (∀ cfg net url r, net.bitly = some r → r.status ≠ 200 →
      shorten_url cfg net url "bitly" = none) ∧
    (∀ cfg net url r, net.tinyurl = some r → r.status ≠ 200 →
      shorten_url cfg net url "tinyurl" = none) ∧
    (∀ cfg net url r, net.cuttly = some r → r.status ≠ 200 →
      shorten_url cfg net url "cuttly" = none) ∧
    (∀ cfg net url r r2, net.gplinksGet = some r → r.status ≠ 200 →
      net.gplinksPost = some r2 → r2.status ≠ 200 → shorten_url cfg net url "gplinks" = none) ∧
    (∀ cfg net url r, net.bitly = some r → r.json = none →
      shorten_url cfg net url "bitly" = none) ∧
    (∀ cfg net url r, net.cuttly = some r → r.json = none →
      shorten_url cfg net url "cuttly" = none) ∧
    (∀ cfg net url, cfg.GPLINKS_API = "" →
      send_single_shortened_url cfg net url "gplinks" =
        "‚ùå Failed to shorten URL using GPLinks." ∧
      containsSeq "GPLinks".data
        (send_single_shortened_url cfg net url "gplinks").data = true) := by
  refine ⟨?_, ?_, ?_, ?_, ?_, ?_, ?_, ?_, ?_, ?_, ?_, ?_, ?_, ?_⟩
  · intro cfg net url h
    by_cases hv : is_valid_url url = false <;> simp [shorten_url, hv, h]
  · intro cfg net url h
    by_cases hv : is_valid_url url = false <;> simp [shorten_url, hv, h]
  · intro cfg net url h
    by_cases hv : is_valid_url url = false <;>
      by_cases hc : cfg.CUTTLY_API = "" <;> simp [shorten_url, hv, hc, h]
  · intro cfg net url h
    by_cases hv : is_valid_url url = false <;>
      by_cases hc : cfg.GPLINKS_API = "" <;> simp [shorten_url, gplinksResult, hv, hc, h]
  · intro cfg net url h
    by_cases hv : is_valid_url url = false <;> simp [shorten_url, hv, h]
  · intro cfg net url h
    by_cases hv : is_valid_url url = false <;> simp [shorten_url, hv, h]
  · intro cfg net url h
    by_cases hv : is_valid_url url = false <;> simp [shorten_url, hv, h]
  · intro cfg net url r h hs
    by_cases hv : is_valid_url url = false <;>
      by_cases hc : cfg.BITLY_TOKEN = "" <;> simp [shorten_url, hv, hc, h, hs]
  · intro cfg net url r h hs
    by_cases hv : is_valid_url url = false <;> simp [shorten_url, hv, h, hs]
  · intro cfg net url r h hs
    by_cases hv : is_valid_url url = false <;>
      by_cases hc : cfg.CUTTLY_API = "" <;> simp [shorten_url, hv, hc, h, hs]
  · intro cfg net url r r2 h hs h2 hs2
    by_cases hv : is_valid_url url = false <;>
      by_cases hc : cfg.GPLINKS_API = "" <;>
      simp [shorten_url, gplinksResult, gplinksPostPart, hv, hc, h, hs, h2, hs2]
  · intro cfg net url r h hj
    by_cases hv : is_valid_url url = false <;>
      by_cases hc : cfg.BITLY_TOKEN = "" <;>
      by_cases hs : r.status = 200 <;> simp [shorten_url, jsonField, hv, hc, h, hj, hs]
  · intro cfg net url r h hj
    by_cases hv : is_valid_url url = false <;>
      by_cases hc : cfg.CUTTLY_API = "" <;>
      by_cases hs : r.status = 200 <;> simp [shorten_url, hv, hc, h, hj, hs]
  · intro cfg net url h
    have hn : shorten_url cfg net url "gplinks" = none := by
      by_cases hv : is_valid_url url = false <;> simp [shorten_url, hv, h]
    constructor
    · simp [send_single_shortened_url, hn, pyTruthyStr, serviceDisplayName]
    · simp only [send_single_shortened_url, hn, pyTruthyStr, serviceDisplayName]
      decide

/-- C8 witness: the spec scenario — gplinks credential unset, dispatch to
gplinks yields the failure message naming GPLinks; plus a transport-error
instance. -/
theorem claim_C8_witness :
    shorten_url cfg0 net0 "http://example.com" "gplinks" = none ∧
    send_single_shortened_url cfg0 net0 "http://example.com" "gplinks" =
      "‚ùå Failed to shorten URL using GPLinks." :=
  ⟨(claim_C8_fail_closed.2.2.2.2.2.2.1) cfg0 net0 "http://example.com" rfl,
   ((claim_C8_fail_closed.2.2.2.2.2.2.2.2.2.2.2.2.2) cfg0 net0 "http://example.com" rfl).1⟩

/-! ### Claim C2 -/

/-- A list beginning with `p ++ q` begins with `p`. -/
lemma leadsWith_append_left (p q l : List Char) :
    leadsWith (p ++ q) l = true → leadsWith p l = true := by
  induction p generalizing l with
  | nil => intro _; rfl
  | cons a p ih =>
    intro h
    cases l with
    | nil => exact absurd h (by simp [leadsWith])
    | cons c cs =>
      simp only [List.cons_append, leadsWith, Bool.and_eq_true] at h ⊢
      exact ⟨h.1, ih cs h.2⟩

/-- When the pattern search finds a URL, the body contains `http`. -/
lemma findUrl_some_contains (l : List Char) (u : List Char) :
    findUrl l = some u → containsSeq "http".data l = true := by
  induction l with
  | nil => intro h; cases h
  | cons c cs ih =>
    intro h
    rw [findUrl] at h
    split at h
    · rename_i hlead
      rw [containsSeq, Bool.or_eq_true]
      left
      rcases Bool.or_eq_true _ _ |>.mp hlead with h7 | h8
      · exact leadsWith_append_left "http".data "://".data _ h7
      · exact leadsWith_append_left "http".data "s://".data _ h8
    · rw [containsSeq, Bool.or_eq_true]
      exact Or.inr (ih h)

/-- C2 counterexample: the claimed strategy chain (`gplinksClaimed`,
modelled from the claim's words) disagrees with the code on two concrete
oracles.  With `netA` the GET body parses as JSON with a non-success status
and embeds `http://alt.example/x`: the claim extracts that substring, the
code skips the substring search (it runs only when JSON parsing throws) and
returns the POST result.  With `netB` the GET reports `status: success`
without a URL field: the claim falls back to the POST retry, the code
returns `None` immediately. -/
theorem claim_C2_counterexample :
    shorten_url cfgG netA "http://example.com" "gplinks" = some "http://post.example/y" ∧
    gplinksClaimed netA.gplinksGet netA.gplinksPost = some "http://alt.example/x" ∧
    shorten_url cfgG netB "http://example.com" "gplinks" = none ∧
    gplinksClaimed netB.gplinksGet netB.gplinksPost = some "http://post.example/z" := by
  refine ⟨?_, ?_, ?_, ?_⟩ <;> decide

/-- C2 (amended): the gplinks adapter tries, in order, on a 200 GET
response: (1) trimmed body starting with `http` — returned whole; (2) body
parsed as JSON object with `status == 'success'` — the `shortenedUrl` field
(falling back to `shorturl`) is returned *terminally*, even when absent, so
no POST retry happens in that branch; (3) only when JSON parsing fails —
the first embedded `http...` substring found by pattern search; a parsed
body that is not a success (or any remaining case) falls through to the
form-encoded POST retry, to which only the "body starts with http" check is
applied; a raised GET aborts the adapter without the POST retry. -/
theorem claim_C2_strategy_order :
    (∀ cfg net url, is_valid_url url = true → cfg.GPLINKS_API ≠ "" →
      shorten_url cfg net url "gplinks" = gplinksResult net.gplinksGet net.gplinksPost) ∧
    (∀ post, gplinksResult none post = none) ∧
    (∀ (r : HResp) post, r.status = 200 →
      leadsWith "http".data (pyStrip r.text).data = true →
      gplinksResult (some r) post = some (pyStrip r.text)) ∧
    (∀ (r : HResp) post fs, r.status = 200 →
      leadsWith "http".data (pyStrip r.text).data = false →
      r.json = some (.jObj fs) → statusSuccess fs = true →
      gplinksResult (some r) post =
        jvalAsStr (pyOrJ (lookupField fs "shortenedUrl") (lookupField fs "shorturl"))) ∧
    (∀ (r : HResp) post fs, r.status = 200 →
      leadsWith "http".data (pyStrip r.text).data = false →
      r.json = some (.jObj fs) → statusSuccess fs = false →
      gplinksResult (some r) post = gplinksPostPart post) ∧
    (∀ (r : HResp) post u, r.status = 200 →
      leadsWith "http".data (pyStrip r.text).data = false →
      r.json = none → findUrl (pyStrip r.text).data = some u →
      gplinksResult (some r) post = some (String.mk u)) ∧
    (∀ (r : HResp) post, r.status = 200 →
      leadsWith "http".data (pyStrip r.text).data = false →
      r.json = none → findUrl (pyStrip r.text).data = none →
      gplinksResult (some r) post = gplinksPostPart post) ∧
    (∀ (r : HResp) post, r.status ≠ 200 →
      gplinksResult (some r) post = gplinksPostPart post) ∧
    (gplinksPostPart none = none) ∧
    (∀ r2 : HResp, r2.status = 200 →
      leadsWith "http".data (pyStrip r2.text).data = true →
      gplinksPostPart (some r2) = some (pyStrip r2.text)) ∧
    (∀ r2 : HResp, r2.status = 200 →
      leadsWith "http".data (pyStrip r2.text).data = false →
      gplinksPostPart (some r2) = none) ∧
    (∀ r2 : HResp, r2.status ≠ 200 → gplinksPostPart (some r2) = none) := by
  refine ⟨?_, ?_, ?_, ?_, ?_, ?_, ?_, ?_, ?_, ?_, ?_, ?_⟩
  · intro cfg net url hv hc
    simp [shorten_url, hv, hc]
  · intro post
    rfl
  · intro r post hs hl
    simp [gplinksResult, hs, hl]
  · intro r post fs hs hl hj hsf
    simp [gplinksResult, hs, hl, hj, hsf]
  · intro r post fs hs hl hj hsf
    simp [gplinksResult, hs, hl, hj, hsf]
  · intro r post u hs hl hj hf
    have hcont := findUrl_some_contains _ _ hf
    simp [gplinksResult, hs, hl, hj, hcont, hf]
  · intro r post hs hl hj hf
    by_cases hcont : containsSeq "http".data (pyStrip r.text).data = true <;>
      simp [gplinksResult, hs, hl, hj, hcont, hf]
  · intro r post hs
    simp [gplinksResult, hs]
  · rfl
  · intro r2 hs hl
    simp [gplinksPostPart, hs, hl]
  · intro r2 hs hl
    simp [gplinksPostPart, hs, hl]
  · intro r2 hs
    simp [gplinksPostPart, hs]

/-- C2 witness: concrete instances of the first strategy (GET body starts
with `http`) and of the success-branch terminal absence. -/
theorem claim_C2_witness :
    gplinksResult (some gplPostY) none = some (pyStrip gplPostY.text) ∧
    gplinksResult (some gplRespB) (some gplPostZ) =
      jvalAsStr (pyOrJ (lookupField [("status", Json.jStr "success")] "shortenedUrl")
        (lookupField [("status", Json.jStr "success")] "shorturl")) :=
  ⟨claim_C2_strategy_order.2.2.1 gplPostY none rfl (by decide),
   claim_C2_strategy_order.2.2.2.1 gplRespB (some gplPostZ)
     [("status", Json.jStr "success")] rfl (by decide) rfl (by decide)⟩

/-! ### Claim C1: characterization of the validator -/

/-- `takeWhile`/`dropWhile` recover an explicit split whose right part does
not start with a satisfying element (maximal munch). -/
lemma takeWhile_append_max (P : Char → Bool) :
    ∀ (l r : List Char), (∀ c ∈ l, P c = true) →
      (∀ c cs, r = c :: cs → P c = false) →
      (l ++ r).takeWhile P = l ∧ (l ++ r).dropWhile P = r := by
  intro l
  induction l with
  | nil =>
    intro r _ hr
    cases r with
    | nil => simp
    | cons c cs => simp [List.takeWhile_cons, List.dropWhile_cons, hr c cs rfl]
  | cons a l ih =>
    intro r hl hr
    have ha : P a = true := hl a (by simp)
    have h2 := ih r (fun c hc => hl c (by simp [hc])) hr
    simp [List.takeWhile_cons, List.dropWhile_cons, ha, h2.1, h2.2]

/-- A list starts with any of its explicit prefixes. -/
lemma leadsWith_refl_append (p l : List Char) : leadsWith p (p ++ l) = true := by
  induction p with
  | nil => rfl
  | cons a p ih => simp [leadsWith, ih]

/-- Elements of `takeWhile` satisfy the predicate. -/
lemma takeWhile_all_prop (P : Char → Bool) (l : List Char) :
    (l.takeWhile P).all P = true :=
  List.all_eq_true.mpr fun _ hx => List.mem_takeWhile_imp hx

/-- A successful case-insensitive strip exhibits the consumed characters. -/
lemma stripCI_some_decomp :
    ∀ (ps l r : List Char), stripCI ps l = some r →
      ∃ pre, l = pre ++ r ∧ pre.map Char.toLower = ps := by
  intro ps
  induction ps with
  | nil =>
    intro l r h
    rw [stripCI] at h
    cases h
    exact ⟨[], rfl, rfl⟩
  | cons p ps ih =>
    intro l r h
    cases l with
    | nil => cases h
    | cons c cs =>
      rw [stripCI] at h
      split at h
      · rename_i hcp
        obtain ⟨pre, hpre, hmap⟩ := ih cs r h
        exact ⟨c :: pre, by simp [hpre], by simp [hmap, hcp]⟩
      · cases h

/-- The strip succeeds on any string starting with a case-variant of the
pattern. -/
lemma stripCI_complete :
    ∀ (pre r : List Char), stripCI (pre.map Char.toLower) (pre ++ r) = some r := by
  intro pre
  induction pre with
  | nil => intro r; rfl
  | cons c cs ih => intro r; simp [stripCI, ih]

/-- A successful scheme split consumed a case-variant of `http://` or
`https://`. -/
lemma schemeSplit_some_decomp (l r : List Char) (h : schemeSplit l = some r) :
    ∃ pre, l = pre ++ r ∧
      (pre.map Char.toLower = "http://".data ∨ pre.map Char.toLower = "https://".data) := by
  unfold schemeSplit at h
  cases h5 : stripCI "https://".data l with
  | some r5 =>
    rw [h5] at h
    simp only [Option.some.injEq] at h
    subst h
    obtain ⟨pre, hp, hm⟩ := stripCI_some_decomp _ _ _ h5
    exact ⟨pre, hp, Or.inr hm⟩
  | none =>
    rw [h5] at h
    obtain ⟨pre, hp, hm⟩ := stripCI_some_decomp _ _ _ h
    exact ⟨pre, hp, Or.inl hm⟩

/-- The scheme split accepts a case-variant of `http://` (the greedy
optional `s` cannot fire, since the fifth character lowercases to `:`). -/
lemma schemeSplit_of_http (pre r : List Char) (h : pre.map Char.toLower = "http://".data) :
    schemeSplit (pre ++ r) = some r := by
  have hc := stripCI_complete pre r
  rw [h] at hc
  unfold schemeSplit
  cases h5 : stripCI "https://".data (pre ++ r) with
  | none => simpa using hc
  | some r5 =>
    exfalso
    obtain ⟨pre2, hp2, hm2⟩ := stripCI_some_decomp _ _ _ h5
    have hmm : List.map Char.toLower (pre ++ r) = List.map Char.toLower (pre2 ++ r5) :=
      congrArg _ hp2
    rw [List.map_append, List.map_append, h, hm2] at hmm
    have e1 : "http://".data = ['h', 't', 't', 'p', ':', '/', '/'] := rfl
    have e2 : "https://".data = ['h', 't', 't', 'p', 's', ':', '/', '/'] := rfl
    rw [e1, e2] at hmm
    simp at hmm

/-- The scheme split accepts a case-variant of `https://`. -/
lemma schemeSplit_of_https (pre r : List Char) (h : pre.map Char.toLower = "https://".data) :
    schemeSplit (pre ++ r) = some r := by
  have hc := stripCI_complete pre r
  rw [h] at hc
  unfold schemeSplit
  rw [hc]

/-- The first character after the host/port can only be `/`, `?` or a
final newline. -/
lemma tail_nl_head (tail nl : List Char) (hT : TailSpec tail) (hN : NlSpec nl) :
    ∀ c cs, tail ++ nl = c :: cs → c = '/' ∨ c = '?' ∨ c = '\n' := by
  intro c cs h
  rcases hT with rfl | rfl | ⟨c', r, rfl, hc', _, _⟩
  · rcases hN with rfl | rfl
    · cases h
    · rw [List.nil_append] at h
      injection h with h1 _
      exact Or.inr (Or.inr h1.symm)
  · rw [List.cons_append] at h
    injection h with h1 _
    exact Or.inl h1.symm
  · rw [List.cons_append] at h
    injection h with h1 _
    rcases hc' with rfl | rfl
    · exact Or.inl h1.symm
    · exact Or.inr (Or.inl h1.symm)

/-- A nonempty all-non-whitespace run does not end in a newline, so
`spacelessPlus` accepts it with either permitted ending. -/
lemma all_nonspace_getLast (l : List Char) (c : Char)
    (hall : l.all (fun x => !pyIsSpace x) = true) (h : l.getLast? = some c) :
    pyIsSpace c = false := by
  have hne : l ≠ [] := by rintro rfl; cases h
  rw [List.getLast?_eq_getLast l hne] at h
  injection h with h
  have hm := List.all_eq_true.mp hall _ (List.getLast_mem hne)
  rw [h] at hm
  simpa using hm

/-- Soundness of `spacelessPlus` on a spec-shaped list. -/
lemma spaceless_of_spec (body nl : List Char) (hb : body ≠ [])
    (hall : body.all (fun x => !pyIsSpace x) = true) (hN : NlSpec nl) :
    spacelessPlus (body ++ nl) = true := by
  rcases hN with rfl | rfl
  · rw [List.append_nil]
    unfold spacelessPlus
    rw [if_neg ?hlast]
    case hlast =>
      intro heq
      have := all_nonspace_getLast body '\n' hall heq
      simp [pyIsSpace] at this
    simp [List.isEmpty_eq_false, hb, hall]
  · unfold spacelessPlus
    rw [if_pos (List.getLast?_concat body)]
    rw [List.dropLast_concat]
    simp [List.isEmpty_eq_false, hb, hall]

/-- Completeness of `spacelessPlus`: a successful check decomposes into a
nonempty non-whitespace body and an optional final newline. -/
lemma spaceless_decomp (l : List Char) (h : spacelessPlus l = true) :
    ∃ body nl, l = body ++ nl ∧ body ≠ [] ∧
      body.all (fun x => !pyIsSpace x) = true ∧ NlSpec nl := by
  unfold spacelessPlus at h
  by_cases hl : l.getLast? = some '\n'
  · rw [if_pos hl] at h
    rw [Bool.and_eq_true, Bool.not_eq_true'] at h
    have hne : l ≠ [] := by rintro rfl; cases hl
    refine ⟨l.dropLast, ['\n'], ?_, List.isEmpty_eq_false.mp h.1, h.2, Or.inr rfl⟩
    have hd := List.dropLast_append_getLast hne
    rw [List.getLast?_eq_getLast l hne] at hl
    injection hl with hl
    rw [hl] at hd
    exact hd.symm
  · rw [if_neg hl] at h
    rw [Bool.and_eq_true, Bool.not_eq_true'] at h
    exact ⟨l, [], (List.append_nil l).symm, List.isEmpty_eq_false.mp h.1, h.2, Or.inl rfl⟩

/-- The compiled equation of `tailOk` on a cons cell. -/
lemma tailOk_cons (c : Char) (rest : List Char) :
    tailOk (c :: rest) =
      (if c = '\n' then rest.isEmpty
       else if c = '/' then
         (rest.isEmpty || (if rest = ['\n'] then true else spacelessPlus rest))
       else if c = '?' then spacelessPlus rest
       else false) := rfl

/-- Soundness of `tailOk` on a spec-shaped tail and newline. -/
lemma tailOk_of_spec (tail nl : List Char) (hT : TailSpec tail) (hN : NlSpec nl) :
    tailOk (tail ++ nl) = true := by
  rcases hT with rfl | rfl | ⟨c, r, rfl, hc, hr, hall⟩
  · rcases hN with rfl | rfl <;> rfl
  · rcases hN with rfl | rfl <;> rfl
  · have hsp : spacelessPlus (r ++ nl) = true := spaceless_of_spec r nl hr hall hN
    have hrne : (r ++ nl).isEmpty = false := by
      rw [List.isEmpty_eq_false]
      cases r with
      | nil => exact absurd rfl hr
      | cons a as => simp
    have hrn1 : ¬ r ++ nl = ['\n'] := by
      intro he
      rcases hN with rfl | rfl
      · rw [List.append_nil] at he
        subst he
        simp [pyIsSpace] at hall
      · have hlen := congrArg List.length he
        simp at hlen
        exact hr hlen
    rcases hc with rfl | rfl
    · rw [List.cons_append, tailOk_cons]
      rw [if_neg (by decide), if_pos rfl, hrne, if_neg hrn1, hsp]
      rfl
    · rw [List.cons_append, tailOk_cons]
      rw [if_neg (by decide), if_neg (by decide), if_pos rfl]
      exact hsp

/-- Completeness of `tailOk`: a successful check decomposes into a
spec-shaped tail and optional final newline. -/
lemma tailOk_decomp (m : List Char) (h : tailOk m = true) :
    ∃ tail nl, m = tail ++ nl ∧ TailSpec tail ∧ NlSpec nl := by
  cases m with
  | nil => exact ⟨[], [], rfl, Or.inl rfl, Or.inl rfl⟩
  | cons c rest =>
    rw [tailOk_cons] at h
    by_cases h1 : c = '\n'
    · rw [if_pos h1] at h
      subst h1
      rw [List.isEmpty_iff] at h
      subst h
      exact ⟨[], ['\n'], rfl, Or.inl rfl, Or.inr rfl⟩
    · rw [if_neg h1] at h
      by_cases h2 : c = '/'
      · rw [if_pos h2] at h
        subst h2
        rcases (Bool.or_eq_true _ _).mp h with he | hrest
        · rw [List.isEmpty_iff] at he
          subst he
          exact ⟨['/'], [], rfl, Or.inr (Or.inl rfl), Or.inl rfl⟩
        · by_cases h3 : rest = ['\n']
          · subst h3
            exact ⟨['/'], ['\n'], rfl, Or.inr (Or.inl rfl), Or.inr rfl⟩
          · rw [if_neg h3] at hrest
            obtain ⟨body, nl, rfl, hbne, hball, hnl⟩ := spaceless_decomp rest hrest
            exact ⟨'/' :: body, nl, rfl,
              Or.inr (Or.inr ⟨'/', body, rfl, Or.inl rfl, hbne, hball⟩), hnl⟩
      · rw [if_neg h2] at h
        by_cases h4 : c = '?'
        · rw [if_pos h4] at h
          subst h4
          obtain ⟨body, nl, rfl, hbne, hball, hnl⟩ := spaceless_decomp rest h
          exact ⟨'?' :: body, nl, rfl,
            Or.inr (Or.inr ⟨'?', body, rfl, Or.inr rfl, hbne, hball⟩), hnl⟩
        · rw [if_neg h4] at h
          cases h

/-- The compiled equation of `portTail` on a cons cell. -/
lemma portTail_cons (c : Char) (r : List Char) :
    portTail (c :: r) =
      (if c = ':' then !(r.takeWhile isDigitChar).isEmpty && tailOk (r.dropWhile isDigitChar)
       else tailOk (c :: r)) := rfl

/-- Completeness of `portTail`: a successful check splits off a spec-shaped
port, leaving a list accepted by `tailOk`. -/
lemma portTail_decomp (m : List Char) (h : portTail m = true) :
    ∃ port rest2, m = port ++ rest2 ∧ PortSpec port ∧ tailOk rest2 = true := by
  cases m with
  | nil => exact ⟨[], [], rfl, Or.inl rfl, rfl⟩
  | cons c r =>
    rw [portTail_cons] at h
    by_cases h1 : c = ':'
    · rw [if_pos h1] at h
      subst h1
      rw [Bool.and_eq_true, Bool.not_eq_true'] at h
      refine ⟨':' :: r.takeWhile isDigitChar, r.dropWhile isDigitChar, ?_, ?_, h.2⟩
      · rw [List.cons_append, List.takeWhile_append_dropWhile]
      · exact Or.inr ⟨r.takeWhile isDigitChar, rfl,
          List.isEmpty_eq_false.mp h.1, takeWhile_all_prop _ _⟩
    · rw [if_neg h1] at h
      exact ⟨[], c :: r, rfl, Or.inl rfl, h⟩

/-- Soundness of `portTail` on a spec-shaped port, tail and newline. -/
lemma portTail_of_spec (port tail nl : List Char)
    (hP : PortSpec port) (hT : TailSpec tail) (hN : NlSpec nl) :
    portTail (port ++ (tail ++ nl)) = true := by
  have htail : tailOk (tail ++ nl) = true := tailOk_of_spec tail nl hT hN
  rcases hP with rfl | ⟨ds, rfl, hne, hall⟩
  · rw [List.nil_append]
    cases hm : tail ++ nl with
    | nil => rfl
    | cons c cs =>
      rw [portTail_cons]
      have hc := tail_nl_head tail nl hT hN c cs hm
      rw [if_neg (by rcases hc with rfl | rfl | rfl <;> decide)]
      rw [← hm]
      exact htail
  · rw [List.cons_append, portTail_cons, if_pos rfl]
    have hmax := takeWhile_append_max isDigitChar ds (tail ++ nl)
      (List.all_eq_true.mp hall)
      (fun c cs hcs => by
        have hc := tail_nl_head tail nl hT hN c cs hcs
        rcases hc with rfl | rfl | rfl <;> decide)
    rw [hmax.1, hmax.2]
    rw [Bool.and_eq_true, Bool.not_eq_true']
    exact ⟨List.isEmpty_eq_false.mpr hne, htail⟩

/-- The characterization of `is_valid_url`: it accepts exactly the strings
of the shape `ValidUrlSpec`. -/
lemma valid_url_iff_spec (s : String) : is_valid_url s = true ↔ ValidUrlSpec s := by
  constructor
  · intro h
    unfold is_valid_url at h
    cases hs : schemeSplit s.data with
    | none => rw [hs] at h; cases h
    | some rest =>
      rw [hs] at h
      rw [Bool.and_eq_true] at h
      obtain ⟨pre, hpre, hsch⟩ := schemeSplit_some_decomp _ _ hs
      obtain ⟨port, rest2, hd, hport, htail⟩ := portTail_decomp _ h.2
      obtain ⟨tail, nl, hr2, hT, hN⟩ := tailOk_decomp _ htail
      refine ⟨pre, rest.takeWhile hostChar, port, tail, nl, ?_, hsch, h.1,
        takeWhile_all_prop _ _, hport, hT, hN⟩
      rw [hpre]
      refine congrArg (fun x => pre ++ x) ?_
      conv_lhs => rw [← List.takeWhile_append_dropWhile hostChar rest]
      rw [hd, hr2]
  · rintro ⟨scheme, host, port, tail, nl, hdata, hsch, hhost, hall, hP, hT, hN⟩
    unfold is_valid_url
    rw [hdata]
    have hscheme : schemeSplit (scheme ++ (host ++ (port ++ (tail ++ nl)))) =
        some (host ++ (port ++ (tail ++ nl))) := by
      rcases hsch with hh | hh
      · exact schemeSplit_of_http _ _ hh
      · exact schemeSplit_of_https _ _ hh
    rw [hscheme]
    show (hostOk ((host ++ (port ++ (tail ++ nl))).takeWhile hostChar) &&
      portTail ((host ++ (port ++ (tail ++ nl))).dropWhile hostChar)) = true
    have hmax := takeWhile_append_max hostChar host (port ++ (tail ++ nl))
      (List.all_eq_true.mp hall)
      (fun c cs hcs => by
        rcases hP with rfl | ⟨ds, rfl, _, _⟩
        · rw [List.nil_append] at hcs
          have := tail_nl_head tail nl hT hN c cs hcs
          rcases this with rfl | rfl | rfl <;> decide
        · rw [List.cons_append] at hcs
          injection hcs with h1 _
          subst h1
          decide)
    rw [hmax.1, hmax.2]
    rw [Bool.and_eq_true]
    exact ⟨hhost, portTail_of_spec port tail nl hP hT hN⟩

/-- A spec-shaped string starts with a case-variant of a scheme. -/
lemma valid_spec_lowerLeads (s : String) (h : ValidUrlSpec s) : lowerLeads s = true := by
  obtain ⟨scheme, host, port, tail, nl, hdata, hsch, _⟩ := h
  unfold lowerLeads
  rw [hdata]
  rw [Bool.or_eq_true]
  rcases hsch with hh | hh
  · left
    rw [List.map_append, ← hh]
    exact leadsWith_refl_append _ _
  · right
    rw [List.map_append, ← hh]
    exact leadsWith_refl_append _ _

/-- C1 counterexample: the regex is compiled with `re.IGNORECASE`, so
`is_valid_url` accepts `HTTP://example.com`, which does not start with the
literal prefix `http://` or `https://`. -/
theorem claim_C1_counterexample :
    is_valid_url "HTTP://example.com" = true ∧
    leadsWith "http://".data "HTTP://example.com".data = false ∧
    leadsWith "https://".data "HTTP://example.com".data = false := by
  refine ⟨?_, ?_, ?_⟩ <;> decide

/-- C1 (amended): for every string whose lowercasing does not start with
`http://` or `https://`, the validator rejects; and it accepts exactly the
strings made of a case-insensitive scheme, a host (dot-separated labels
with a 2-6 letter TLD and optional trailing dot, or `localhost`, or a
dotted-quad IPv4 address), an optional `:port`, an optional path/query, and
an optional single trailing newline (accepted by the regex anchor `$`). -/
theorem claim_C1_scheme_and_shape :
    (∀ s : String, lowerLeads s = false → is_valid_url s = false) ∧
    (∀ s : String, is_valid_url s = true ↔ ValidUrlSpec s) := by
  constructor
  · intro s hl
    cases hv : is_valid_url s with
    | false => rfl
    | true =>
      have := valid_spec_lowerLeads s ((valid_url_iff_spec s).mp hv)
      rw [hl] at this
      cases this
  · exact valid_url_iff_spec

/-- C1 witness: a rejected non-scheme string and an accepted URL exhibiting
the spec shape. -/
theorem claim_C1_witness :
    is_valid_url "ftp://example.com" = false ∧ ValidUrlSpec "http://example.com" :=
  ⟨claim_C1_scheme_and_shape.1 "ftp://example.com" (by decide),
   (claim_C1_scheme_and_shape.2 "http://example.com").mp (by decide)⟩

end Bot
